import Mathlib

/-!
Verification of the AceButton (ESP-IDF port) debouncing-and-classification
state machine, as implemented in `src/AceButton.cpp`.

The per-button mutable data (`mFlags`, `mLastButtonState`, the five
timestamps) lives in the header `AceButton.h`, which only declares fields;
all logic verified here is translated from `AceButton.cpp`.  Timestamps are
`int64_t` in the source and are modelled as `Int`.  Raw levels are the
Arduino `LOW = 0` / `HIGH = 1` values modelled as `Nat`, with the
distinguished unknown sentinel.
-/

namespace AceButton

/-- Arduino LOW. -/
def LOW : Nat := 0

/-- Arduino HIGH. -/
def HIGH : Nat := 1

/-- Modelled from the spec: `kButtonStateUnknown`, the distinguished sentinel
level used only before the first confirmed sample; its declaration lives in
the missing header `AceButton.h`.  The only property used is that it differs
from `LOW` and `HIGH`. -/
def kButtonStateUnknown : Nat := 127

/-- The event kinds dispatched by the classifier (the `kEventXxx` constants
of the header, in the order of the `sEventNames` table of `AceButton.cpp`). -/
inductive EventKind where
  | kEventPressed
  | kEventReleased
  | kEventClicked
  | kEventDoubleClicked
  | kEventLongPressed
  | kEventRepeatPressed
  | kEventLongReleased
  | kEventHeartBeat
deriving DecidableEq, Repr

open EventKind

/-- An event handed to the external sink: kind plus the level at dispatch
time (third argument of `ButtonConfig::dispatchEvent`). -/
structure Event where
  kind : EventKind
  level : Nat
deriving DecidableEq, Repr

/-- Modelled from the spec: the configuration record (`ButtonConfig`, whose
header is not part of the sources): the numeric delays/intervals and the
enabled-feature set, all read-only from the classifier's perspective. -/
structure ButtonConfig where
  debounceDelay : Int
  clickDelay : Int
  doubleClickDelay : Int
  longPressDelay : Int
  repeatPressDelay : Int
  repeatPressInterval : Int
  heartBeatInterval : Int
  featureClick : Bool
  featureDoubleClick : Bool
  featureLongPress : Bool
  featureRepeatPress : Bool
  featureHeartBeat : Bool
  featureSuppressAfterClick : Bool
  featureSuppressAfterDoubleClick : Bool
  featureSuppressAfterLongPress : Bool
  featureSuppressAfterRepeatPress : Bool
  featureSuppressClickBeforeDoubleClick : Bool
deriving DecidableEq, Repr

/-- The per-button state record: `mLastButtonState`, the bits of `mFlags`
(one Bool per `kFlagXxx` constant, plus the `kFlagDefaultReleasedState`
polarity bit), and the five timestamps. -/
structure ButtonState where
  lastButtonState : Nat
  debouncing : Bool
  pressed : Bool
  longPressed : Bool
  repeatPressed : Bool
  clicked : Bool
  doubleClicked : Bool
  clickPostponed : Bool
  heartRunning : Bool
  defaultReleasedHigh : Bool
  lastDebounceTime : Int
  lastPressTime : Int
  lastClickTime : Int
  lastRepeatPressTime : Int
  lastHeartBeatTime : Int
deriving DecidableEq, Repr

/-- `AceButton::getDefaultReleasedState`: `HIGH` if the polarity flag is set,
else `LOW`. -/
def getDefaultReleasedState (s : ButtonState) : Nat :=
  if s.defaultReleasedHigh then HIGH else LOW

/-- `AceButton::handleEvent`: dispatch one event to the sink, carrying
`getLastButtonState()` as the level. The state is unchanged. -/
def handleEvent (s : ButtonState) (eventType : EventKind) :
    ButtonState × List Event :=
  (s, [⟨eventType, s.lastButtonState⟩])

/-- `AceButton::checkDebounced`: the debounce gate. Returns the updated state
and whether the sample is confirmed. -/
def checkDebounced (cfg : ButtonConfig) (s : ButtonState) (now : Int)
    (buttonState : Nat) : ButtonState × Bool :=
  if s.debouncing then
    let elapsedTime : Int := now - s.lastDebounceTime
    if elapsedTime ≥ cfg.debounceDelay then
      ({ s with debouncing := false }, true)
    else
      (s, false)
  else
    if buttonState = s.lastButtonState then
      (s, true)
    else
      ({ s with debouncing := true, lastDebounceTime := now }, false)

/-- `AceButton::checkInitialized`: absorb the very first observed level as
baseline without firing an event. -/
def checkInitialized (s : ButtonState) (buttonState : Nat) :
    ButtonState × Bool :=
  if s.lastButtonState ≠ kButtonStateUnknown then
    (s, true)
  else
    ({ s with lastButtonState := buttonState }, false)

/-- `AceButton::checkLongPress`. -/
def checkLongPress (cfg : ButtonConfig) (s : ButtonState) (now : Int)
    (buttonState : Nat) : ButtonState × List Event :=
  if buttonState = getDefaultReleasedState s then
    (s, [])
  else
    if s.pressed ∧ ¬ s.longPressed then
      if now - s.lastPressTime ≥ cfg.longPressDelay then
        handleEvent { s with longPressed := true } kEventLongPressed
      else
        (s, [])
    else
      (s, [])

/-- `AceButton::checkRepeatPress`. -/
def checkRepeatPress (cfg : ButtonConfig) (s : ButtonState) (now : Int)
    (buttonState : Nat) : ButtonState × List Event :=
  if buttonState = getDefaultReleasedState s then
    (s, [])
  else
    if s.pressed then
      if s.repeatPressed then
        if now - s.lastRepeatPressTime ≥ cfg.repeatPressInterval then
          let p := handleEvent s kEventRepeatPressed
          ({ p.1 with lastRepeatPressTime := now }, p.2)
        else
          (s, [])
      else
        if now - s.lastPressTime ≥ cfg.repeatPressDelay then
          let p :=
            handleEvent { s with repeatPressed := true } kEventRepeatPressed
          ({ p.1 with lastRepeatPressTime := now }, p.2)
        else
          (s, [])
    else
      (s, [])

/-- `AceButton::checkDoubleClicked`. -/
def checkDoubleClicked (cfg : ButtonConfig) (s : ButtonState) (now : Int) :
    ButtonState × List Event :=
  if ¬ s.clicked then
    ({ s with doubleClicked := false }, [])
  else
    if now - s.lastClickTime ≥ cfg.doubleClickDelay then
      ({ s with doubleClicked := false }, [])
    else
      let s1 := if s.clickPostponed then { s with clickPostponed := false } else s
      handleEvent { s1 with doubleClicked := true } kEventDoubleClicked

/-- `AceButton::checkClicked`. -/
def checkClicked (cfg : ButtonConfig) (s : ButtonState) (now : Int) :
    ButtonState × List Event :=
  if now - s.lastPressTime ≥ cfg.clickDelay then
    ({ s with clicked := false }, [])
  else
    let p :=
      if cfg.featureDoubleClick then checkDoubleClicked cfg s now else (s, [])
    let s1 := p.1
    if s1.doubleClicked then
      ({ s1 with clicked := false }, p.2)
    else
      let s2 := { s1 with lastClickTime := now, clicked := true }
      if cfg.featureSuppressClickBeforeDoubleClick then
        ({ s2 with clickPostponed := true }, p.2)
      else
        let q := handleEvent s2 kEventClicked
        (q.1, p.2 ++ q.2)

/-- `AceButton::checkOrphanedClick`: reclaim a click whose double-click
pairing window (of length `getDoubleClickDelay()`) expired. -/
def checkOrphanedClick (cfg : ButtonConfig) (s : ButtonState) (now : Int) :
    ButtonState × List Event :=
  if s.clicked ∧ now - s.lastClickTime ≥ cfg.doubleClickDelay then
    ({ s with clicked := false }, [])
  else
    (s, [])

/-- `AceButton::checkPostponedClick`: flush a postponed click once its
double-click window elapsed without a double-click. -/
def checkPostponedClick (cfg : ButtonConfig) (s : ButtonState) (now : Int) :
    ButtonState × List Event :=
  if s.clickPostponed ∧ now - s.lastClickTime ≥ cfg.doubleClickDelay then
    let p := handleEvent s kEventClicked
    ({ p.1 with clickPostponed := false }, p.2)
  else
    (s, [])

/-- The click-evaluation step of `AceButton::checkReleased`: run
`checkClicked` when the click or double-click feature is enabled. -/
def releaseClickPhase (cfg : ButtonConfig) (s : ButtonState) (now : Int) :
    ButtonState × List Event :=
  if cfg.featureClick ∨ cfg.featureDoubleClick then
    checkClicked cfg s now
  else
    (s, [])

/-- The suppression condition computed by `AceButton::checkReleased` from the
flag state after click evaluation. -/
def releaseSuppress (cfg : ButtonConfig) (s : ButtonState) : Bool :=
  (s.longPressed && cfg.featureSuppressAfterLongPress) ||
  (s.repeatPressed && cfg.featureSuppressAfterRepeatPress) ||
  (s.clicked && cfg.featureSuppressAfterClick) ||
  (s.doubleClicked && cfg.featureSuppressAfterDoubleClick)

/-- `AceButton::checkReleased`. -/
def checkReleased (cfg : ButtonConfig) (s : ButtonState) (now : Int)
    (buttonState : Nat) : ButtonState × List Event :=
  if buttonState ≠ getDefaultReleasedState s then
    (s, [])
  else
    let p := releaseClickPhase cfg s now
    let s1 := p.1
    let wasLongPressed := s1.longPressed
    let suppress := releaseSuppress cfg s1
    let s2 := { s1 with pressed := false, doubleClicked := false,
                        longPressed := false, repeatPressed := false }
    if suppress then
      if wasLongPressed then
        let q := handleEvent s2 kEventLongReleased
        (q.1, p.2 ++ q.2)
      else
        (s2, p.2)
    else
      let q := handleEvent s2 kEventReleased
      (q.1, p.2 ++ q.2)

/-- `AceButton::checkPressed`. -/
def checkPressed (s : ButtonState) (now : Int) (buttonState : Nat) :
    ButtonState × List Event :=
  if buttonState = getDefaultReleasedState s then
    (s, [])
  else
    handleEvent { s with lastPressTime := now, pressed := true } kEventPressed

/-- `AceButton::checkChanged`: record the newly confirmed level, then run
press detection and release detection. -/
def checkChanged (cfg : ButtonConfig) (s : ButtonState) (now : Int)
    (buttonState : Nat) : ButtonState × List Event :=
  let s0 := { s with lastButtonState := buttonState }
  let p := checkPressed s0 now buttonState
  let q := checkReleased cfg p.1 now buttonState
  (q.1, p.2 ++ q.2)

/-- The click housekeeping step of `AceButton::checkEvent`: the postponed
flush then the orphan reclaim, gated on the click or double-click feature. -/
def clickHousekeeping (cfg : ButtonConfig) (s : ButtonState) (now : Int) :
    ButtonState × List Event :=
  if cfg.featureClick ∨ cfg.featureDoubleClick then
    let p := checkPostponedClick cfg s now
    let q := checkOrphanedClick cfg p.1 now
    (q.1, p.2 ++ q.2)
  else
    (s, [])

/-- `AceButton::checkEvent`: click housekeeping, long press, repeat press,
then change detection, in the source's order. -/
def checkEvent (cfg : ButtonConfig) (s : ButtonState) (now : Int)
    (buttonState : Nat) : ButtonState × List Event :=
  let a := clickHousekeeping cfg s now
  let b := if cfg.featureLongPress
    then checkLongPress cfg a.1 now buttonState else (a.1, [])
  let c := if cfg.featureRepeatPress
    then checkRepeatPress cfg b.1 now buttonState else (b.1, [])
  let d := if buttonState ≠ c.1.lastButtonState
    then checkChanged cfg c.1 now buttonState else (c.1, [])
  (d.1, a.2 ++ b.2 ++ c.2 ++ d.2)

/-- `AceButton::checkHeartBeat`. -/
def checkHeartBeat (cfg : ButtonConfig) (s : ButtonState) (now : Int) :
    ButtonState × List Event :=
  if ¬ cfg.featureHeartBeat then
    (s, [])
  else
    if ¬ s.heartRunning then
      ({ s with heartRunning := true, lastHeartBeatTime := now }, [])
    else
      if now - s.lastHeartBeatTime ≥ cfg.heartBeatInterval then
        let p := handleEvent s kEventHeartBeat
        ({ p.1 with lastHeartBeatTime := now }, p.2)
      else
        (s, [])

/-- `AceButton::checkState`: heartbeat first and unconditionally, then the
debounce gate, and only on a confirmed sample the initialization stage and
the event classification. -/
def checkState (cfg : ButtonConfig) (s : ButtonState) (now : Int)
    (buttonState : Nat) : ButtonState × List Event :=
  let h := checkHeartBeat cfg s now
  let d := checkDebounced cfg h.1 now buttonState
  if d.2 then
    let i := checkInitialized d.1 buttonState
    if i.2 then
      let e := checkEvent cfg i.1 now buttonState
      (e.1, h.2 ++ e.2)
    else
      (i.1, h.2)
  else
    (d.1, h.2)

/-- Run the classifier over a list of `(timestamp, rawLevel)` samples,
accumulating the dispatched events. -/
def runSamples (cfg : ButtonConfig) (s : ButtonState)
    (samples : List (Int × Nat)) : ButtonState × List Event :=
  match samples with
  | [] => (s, [])
  | p :: rest =>
      let a := checkState cfg s p.1 p.2
      let b := runSamples cfg a.1 rest
      (b.1, a.2 ++ b.2)

/-- The classification stage order as the specification states it: after the
baseline-establishing stage, long-press detection, then repeat-press
detection, then click cleanup (postponed flush and orphan reclaim), then
change detection.  Written from the spec's words, to be compared with the
source's `checkEvent`. -/
def checkEventClaimOrder (cfg : ButtonConfig) (s : ButtonState) (now : Int)
    (buttonState : Nat) : ButtonState × List Event :=
  let b := if cfg.featureLongPress
    then checkLongPress cfg s now buttonState else (s, [])
  let c := if cfg.featureRepeatPress
    then checkRepeatPress cfg b.1 now buttonState else (b.1, [])
  let a := clickHousekeeping cfg c.1 now
  let d := if buttonState ≠ a.1.lastButtonState
    then checkChanged cfg a.1 now buttonState else (a.1, [])
  (d.1, b.2 ++ c.2 ++ a.2 ++ d.2)

/-- The full classifier with the stage order as the specification states it
(heartbeat, then the gate, identical to the source; but the accepted-sample
stages in the spec's order). -/
def checkStateClaimOrder (cfg : ButtonConfig) (s : ButtonState) (now : Int)
    (buttonState : Nat) : ButtonState × List Event :=
  let h := checkHeartBeat cfg s now
  let d := checkDebounced cfg h.1 now buttonState
  if d.2 then
    let i := checkInitialized d.1 buttonState
    if i.2 then
      let e := checkEventClaimOrder cfg i.1 now buttonState
      (e.1, h.2 ++ e.2)
    else
      (i.1, h.2)
  else
    (d.1, h.2)

/-- Modelled from the spec: the elapsed-time computation the spec prescribes
for a wrapping time source: fixed-width unsigned subtraction, here at the
16-bit width named by the spec, so the result is the true elapsed time
across one wrap boundary. -/
def wrapElapsed16 (now last : Nat) : Nat :=
  (now + 65536 - last % 65536) % 65536

/-- A sample configuration: the click feature enabled, every other feature
disabled, with representative delay values. -/
def sampleConfig : ButtonConfig :=
  { debounceDelay := 20, clickDelay := 200, doubleClickDelay := 400,
    longPressDelay := 1000, repeatPressDelay := 1000,
    repeatPressInterval := 200, heartBeatInterval := 1000,
    featureClick := true, featureDoubleClick := false,
    featureLongPress := false, featureRepeatPress := false,
    featureHeartBeat := false,
    featureSuppressAfterClick := false,
    featureSuppressAfterDoubleClick := false,
    featureSuppressAfterLongPress := false,
    featureSuppressAfterRepeatPress := false,
    featureSuppressClickBeforeDoubleClick := false }

/-- A sample state: button wired with released = `HIGH`, currently held at
level `LOW` since time 0, no other condition in progress. -/
def heldState : ButtonState :=
  { lastButtonState := 0, debouncing := false, pressed := true,
    longPressed := false, repeatPressed := false, clicked := false,
    doubleClicked := false, clickPostponed := false, heartRunning := false,
    defaultReleasedHigh := true,
    lastDebounceTime := 0, lastPressTime := 0, lastClickTime := 0,
    lastRepeatPressTime := 0, lastHeartBeatTime := 0 }

/-- `heldState` in the middle of debouncing a change first seen at time 25. -/
def debouncingHeldState : ButtonState :=
  { heldState with debouncing := true, lastDebounceTime := 25 }

/-- `sampleConfig` with long press and click postponement also enabled. -/
def orderConfig : ButtonConfig :=
  { sampleConfig with featureLongPress := true,
                      featureSuppressClickBeforeDoubleClick := true }

/-- `heldState` with a pending click and a postponed click from time 0. -/
def postponedState : ButtonState :=
  { heldState with clicked := true, clickPostponed := true }

/-- `sampleConfig` with the click feature also disabled, so that neither
click nor double click is enabled. -/
def noClickConfig : ButtonConfig :=
  { sampleConfig with featureClick := false }

/-- A released button carrying a stale click recorded at time 0. -/
def staleClickedState : ButtonState :=
  { heldState with pressed := false, lastButtonState := 1, clicked := true }

/-- `sampleConfig` with a 10 tick debounce delay. -/
def wrapConfig : ButtonConfig :=
  { sampleConfig with debounceDelay := 10 }

/-- A state debouncing since tick 65530 of a 16-bit wrapping clock. -/
def wrapState : ButtonState :=
  { heldState with debouncing := true, lastDebounceTime := 65530 }

/-- A not-yet-baselined state (unknown sentinel) in the middle of a
debounce window that started at time 0. -/
def bootDebounceState : ButtonState :=
  { heldState with pressed := false, lastButtonState := kButtonStateUnknown,
                   debouncing := true }

/-- A baselined released state in the middle of a debounce window that
started at time 0. -/
def baselinedDebounceState : ButtonState :=
  { heldState with pressed := false, lastButtonState := 1,
                   debouncing := true }

/-- `sampleConfig` with double click and click postponement also
enabled. -/
def doubleClickConfig : ButtonConfig :=
  { sampleConfig with featureDoubleClick := true,
                      featureSuppressClickBeforeDoubleClick := true }

/-- A released, idle button state (baseline `HIGH`, nothing pending). -/
def restingState : ButtonState :=
  { heldState with pressed := false, lastButtonState := 1 }

/-- `sampleConfig` with the suppress-after-click feature also enabled. -/
def suppressAfterClickConfig : ButtonConfig :=
  { sampleConfig with featureSuppressAfterClick := true }

/-- A held-boot state: baselined at the pressed level `LOW` with all flags
and timestamps at their boot values, mid-debounce since time 0 (the board
booted with the switch held, then the level changed). -/
def heldBootState : ButtonState :=
  { heldState with pressed := false, debouncing := true }

/-- The static `sEventNames` table of `AceButton.cpp`. -/
def sEventNames : List String :=
  ["Pressed", "Released", "Clicked", "DoubleClicked",
   "LongPressed", "RepeatPressed", "LongReleased", "HeartBeat"]

/-- The `sEventUnknown` string of `AceButton.cpp`. -/
def sEventUnknown : String := "(unknown)"

/-- `AceButton::eventName` as implemented in the source: the table lookup is
commented out and the function returns `sEventUnknown` for every argument. -/
def eventName (_event : Nat) : String :=
  sEventUnknown

/-- Helper: fields of the state that double-click evaluation never
changes. -/
theorem checkDoubleClicked_proj (cfg : ButtonConfig) (s : ButtonState)
    (now : Int) :
    ((checkDoubleClicked cfg s now).1).lastButtonState = s.lastButtonState ∧
    ((checkDoubleClicked cfg s now).1).debouncing = s.debouncing ∧
    ((checkDoubleClicked cfg s now).1).defaultReleasedHigh
      = s.defaultReleasedHigh ∧
    ((checkDoubleClicked cfg s now).1).pressed = s.pressed ∧
    ((checkDoubleClicked cfg s now).1).longPressed = s.longPressed ∧
    ((checkDoubleClicked cfg s now).1).repeatPressed = s.repeatPressed := by
  unfold checkDoubleClicked handleEvent
  split_ifs <;> simp

/-- Helper: fields of the state that click evaluation never changes. -/
theorem checkClicked_proj (cfg : ButtonConfig) (s : ButtonState)
    (now : Int) :
    ((checkClicked cfg s now).1).lastButtonState = s.lastButtonState ∧
    ((checkClicked cfg s now).1).debouncing = s.debouncing ∧
    ((checkClicked cfg s now).1).defaultReleasedHigh
      = s.defaultReleasedHigh ∧
    ((checkClicked cfg s now).1).pressed = s.pressed ∧
    ((checkClicked cfg s now).1).longPressed = s.longPressed ∧
    ((checkClicked cfg s now).1).repeatPressed = s.repeatPressed := by
  unfold checkClicked handleEvent
  split_ifs <;> simp [checkDoubleClicked_proj] <;>
    split_ifs <;> simp [checkDoubleClicked_proj]

/-- Helper: fields of the state that the release detector's click phase
never changes. -/
theorem releaseClickPhase_proj (cfg : ButtonConfig) (s : ButtonState)
    (now : Int) :
    ((releaseClickPhase cfg s now).1).lastButtonState = s.lastButtonState ∧
    ((releaseClickPhase cfg s now).1).debouncing = s.debouncing ∧
    ((releaseClickPhase cfg s now).1).defaultReleasedHigh
      = s.defaultReleasedHigh ∧
    ((releaseClickPhase cfg s now).1).pressed = s.pressed ∧
    ((releaseClickPhase cfg s now).1).longPressed = s.longPressed ∧
    ((releaseClickPhase cfg s now).1).repeatPressed = s.repeatPressed := by
  unfold releaseClickPhase
  split_ifs <;> simp [checkClicked_proj]

/-- Helper: long-press detection either leaves the state unchanged or only
sets the LongPressed flag, emitting one `LongPressed` event at the last
confirmed level. -/
theorem checkLongPress_cases (cfg : ButtonConfig) (s : ButtonState)
    (now : Int) (lvl : Nat) :
    checkLongPress cfg s now lvl = (s, []) ∨
    checkLongPress cfg s now lvl =
      ({ s with longPressed := true },
       [⟨kEventLongPressed, s.lastButtonState⟩]) := by
  unfold checkLongPress handleEvent
  split_ifs <;> simp

/-- Helper: repeat-press detection leaves the state unchanged, or refreshes
the repeat timestamp, or sets the RepeatPressed flag with the timestamp; in
the latter two cases it emits one `RepeatPressed` event at the last
confirmed level. -/
theorem checkRepeatPress_cases (cfg : ButtonConfig) (s : ButtonState)
    (now : Int) (lvl : Nat) :
    checkRepeatPress cfg s now lvl = (s, []) ∨
    checkRepeatPress cfg s now lvl =
      ({ s with lastRepeatPressTime := now },
       [⟨kEventRepeatPressed, s.lastButtonState⟩]) ∨
    checkRepeatPress cfg s now lvl =
      ({ s with repeatPressed := true, lastRepeatPressTime := now },
       [⟨kEventRepeatPressed, s.lastButtonState⟩]) := by
  unfold checkRepeatPress handleEvent
  split_ifs <;> simp

/-- Helper: the postponed-click flush written as one conditional. -/
theorem checkPostponedClick_eq (cfg : ButtonConfig) (s : ButtonState)
    (now : Int) :
    checkPostponedClick cfg s now =
      if s.clickPostponed = true ∧
          now - s.lastClickTime ≥ cfg.doubleClickDelay then
        ({ s with clickPostponed := false },
         [⟨kEventClicked, s.lastButtonState⟩])
      else (s, []) := by
  unfold checkPostponedClick handleEvent
  split_ifs <;> simp_all

/-- Helper: the orphaned-click reclaim written as one conditional. -/
theorem checkOrphanedClick_eq (cfg : ButtonConfig) (s : ButtonState)
    (now : Int) :
    checkOrphanedClick cfg s now =
      if s.clicked = true ∧ now - s.lastClickTime ≥ cfg.doubleClickDelay then
        ({ s with clicked := false }, [])
      else (s, []) := by
  unfold checkOrphanedClick
  split_ifs <;> simp_all

/-- Helper: fields of the state that long-press detection never changes. -/
theorem checkLongPress_proj (cfg : ButtonConfig) (s : ButtonState)
    (now : Int) (lvl : Nat) :
    ((checkLongPress cfg s now lvl).1).clicked = s.clicked ∧
    ((checkLongPress cfg s now lvl).1).clickPostponed = s.clickPostponed ∧
    ((checkLongPress cfg s now lvl).1).lastButtonState = s.lastButtonState ∧
    ((checkLongPress cfg s now lvl).1).debouncing = s.debouncing ∧
    ((checkLongPress cfg s now lvl).1).defaultReleasedHigh
      = s.defaultReleasedHigh ∧
    ((checkLongPress cfg s now lvl).1).pressed = s.pressed ∧
    ((checkLongPress cfg s now lvl).1).repeatPressed = s.repeatPressed ∧
    ((checkLongPress cfg s now lvl).1).doubleClicked = s.doubleClicked ∧
    ((checkLongPress cfg s now lvl).1).lastDebounceTime
      = s.lastDebounceTime := by
  rcases checkLongPress_cases cfg s now lvl with h | h <;> simp [h]

/-- Helper: fields of the state that repeat-press detection never changes. -/
theorem checkRepeatPress_proj (cfg : ButtonConfig) (s : ButtonState)
    (now : Int) (lvl : Nat) :
    ((checkRepeatPress cfg s now lvl).1).clicked = s.clicked ∧
    ((checkRepeatPress cfg s now lvl).1).clickPostponed = s.clickPostponed ∧
    ((checkRepeatPress cfg s now lvl).1).lastButtonState
      = s.lastButtonState ∧
    ((checkRepeatPress cfg s now lvl).1).debouncing = s.debouncing ∧
    ((checkRepeatPress cfg s now lvl).1).defaultReleasedHigh
      = s.defaultReleasedHigh ∧
    ((checkRepeatPress cfg s now lvl).1).pressed = s.pressed ∧
    ((checkRepeatPress cfg s now lvl).1).longPressed = s.longPressed ∧
    ((checkRepeatPress cfg s now lvl).1).doubleClicked = s.doubleClicked ∧
    ((checkRepeatPress cfg s now lvl).1).lastDebounceTime
      = s.lastDebounceTime := by
  rcases checkRepeatPress_cases cfg s now lvl with h | h | h <;> simp [h]

/-- Helper: the heartbeat timer leaves the state unchanged, or only starts
the heartbeat baseline, or only refreshes the heartbeat timestamp while
emitting one `HeartBeat` event at the last confirmed level. -/
theorem checkHeartBeat_cases (cfg : ButtonConfig) (s : ButtonState)
    (now : Int) :
    checkHeartBeat cfg s now = (s, []) ∨
    checkHeartBeat cfg s now =
      ({ s with heartRunning := true, lastHeartBeatTime := now }, []) ∨
    checkHeartBeat cfg s now =
      ({ s with lastHeartBeatTime := now },
       [⟨kEventHeartBeat, s.lastButtonState⟩]) := by
  unfold checkHeartBeat handleEvent
  split_ifs <;> simp

/-- Helper: fields of the state that the debounce gate never changes. -/
theorem checkDebounced_proj (cfg : ButtonConfig) (s : ButtonState)
    (now : Int) (lvl : Nat) :
    ((checkDebounced cfg s now lvl).1).lastButtonState = s.lastButtonState ∧
    ((checkDebounced cfg s now lvl).1).defaultReleasedHigh
      = s.defaultReleasedHigh ∧
    ((checkDebounced cfg s now lvl).1).pressed = s.pressed ∧
    ((checkDebounced cfg s now lvl).1).longPressed = s.longPressed ∧
    ((checkDebounced cfg s now lvl).1).repeatPressed = s.repeatPressed ∧
    ((checkDebounced cfg s now lvl).1).clicked = s.clicked ∧
    ((checkDebounced cfg s now lvl).1).doubleClicked = s.doubleClicked ∧
    ((checkDebounced cfg s now lvl).1).clickPostponed = s.clickPostponed := by
  unfold checkDebounced
  dsimp only
  split_ifs <;> simp

/-- Helper: fields of the state that click housekeeping never changes. -/
theorem clickHousekeeping_proj (cfg : ButtonConfig) (s : ButtonState)
    (now : Int) :
    ((clickHousekeeping cfg s now).1).lastButtonState = s.lastButtonState ∧
    ((clickHousekeeping cfg s now).1).debouncing = s.debouncing ∧
    ((clickHousekeeping cfg s now).1).lastDebounceTime
      = s.lastDebounceTime ∧
    ((clickHousekeeping cfg s now).1).defaultReleasedHigh
      = s.defaultReleasedHigh ∧
    ((clickHousekeeping cfg s now).1).pressed = s.pressed ∧
    ((clickHousekeeping cfg s now).1).longPressed = s.longPressed ∧
    ((clickHousekeeping cfg s now).1).repeatPressed = s.repeatPressed ∧
    ((clickHousekeeping cfg s now).1).doubleClicked = s.doubleClicked := by
  unfold clickHousekeeping
  simp only [checkPostponedClick_eq, checkOrphanedClick_eq]
  split_ifs <;> simp

/-- Helper: click housekeeping can only emit the deferred `Clicked` event,
at the last confirmed level. -/
theorem clickHousekeeping_events (cfg : ButtonConfig) (s : ButtonState)
    (now : Int) :
    ∀ e ∈ (clickHousekeeping cfg s now).2,
      e = (⟨kEventClicked, s.lastButtonState⟩ : Event) := by
  unfold clickHousekeeping
  simp only [checkPostponedClick_eq, checkOrphanedClick_eq]
  split_ifs <;> simp

/-- Helper: fields never changed by the feature-gated long-press stage of
`checkEvent`. -/
theorem longStage_proj (cfg : ButtonConfig) (s : ButtonState) (now : Int)
    (lvl : Nat) :
    (((if cfg.featureLongPress then checkLongPress cfg s now lvl
        else (s, [])) : ButtonState × List Event).1).lastButtonState
      = s.lastButtonState ∧
    (((if cfg.featureLongPress then checkLongPress cfg s now lvl
        else (s, [])) : ButtonState × List Event).1).debouncing
      = s.debouncing ∧
    (((if cfg.featureLongPress then checkLongPress cfg s now lvl
        else (s, [])) : ButtonState × List Event).1).lastDebounceTime
      = s.lastDebounceTime ∧
    (((if cfg.featureLongPress then checkLongPress cfg s now lvl
        else (s, [])) : ButtonState × List Event).1).defaultReleasedHigh
      = s.defaultReleasedHigh ∧
    (((if cfg.featureLongPress then checkLongPress cfg s now lvl
        else (s, [])) : ButtonState × List Event).1).clicked = s.clicked ∧
    (((if cfg.featureLongPress then checkLongPress cfg s now lvl
        else (s, [])) : ButtonState × List Event).1).clickPostponed
      = s.clickPostponed ∧
    (((if cfg.featureLongPress then checkLongPress cfg s now lvl
        else (s, [])) : ButtonState × List Event).1).repeatPressed
      = s.repeatPressed ∧
    (((if cfg.featureLongPress then checkLongPress cfg s now lvl
        else (s, [])) : ButtonState × List Event).1).doubleClicked
      = s.doubleClicked := by
  cases h : cfg.featureLongPress <;>
    simp [h, checkLongPress_proj]

/-- Helper: the feature-gated long-press stage can only emit `LongPressed`,
at the last confirmed level. -/
theorem longStage_events (cfg : ButtonConfig) (s : ButtonState) (now : Int)
    (lvl : Nat) :
    ∀ e ∈ ((if cfg.featureLongPress then checkLongPress cfg s now lvl
        else (s, [])) : ButtonState × List Event).2,
      e = (⟨kEventLongPressed, s.lastButtonState⟩ : Event) := by
  cases h : cfg.featureLongPress <;>
    rcases checkLongPress_cases cfg s now lvl with hc | hc <;>
    simp [h, hc]

/-- Helper: fields never changed by the feature-gated repeat-press stage of
`checkEvent`. -/
theorem repeatStage_proj (cfg : ButtonConfig) (s : ButtonState) (now : Int)
    (lvl : Nat) :
    (((if cfg.featureRepeatPress then checkRepeatPress cfg s now lvl
        else (s, [])) : ButtonState × List Event).1).lastButtonState
      = s.lastButtonState ∧
    (((if cfg.featureRepeatPress then checkRepeatPress cfg s now lvl
        else (s, [])) : ButtonState × List Event).1).debouncing
      = s.debouncing ∧
    (((if cfg.featureRepeatPress then checkRepeatPress cfg s now lvl
        else (s, [])) : ButtonState × List Event).1).lastDebounceTime
      = s.lastDebounceTime ∧
    (((if cfg.featureRepeatPress then checkRepeatPress cfg s now lvl
        else (s, [])) : ButtonState × List Event).1).defaultReleasedHigh
      = s.defaultReleasedHigh ∧
    (((if cfg.featureRepeatPress then checkRepeatPress cfg s now lvl
        else (s, [])) : ButtonState × List Event).1).clicked = s.clicked ∧
    (((if cfg.featureRepeatPress then checkRepeatPress cfg s now lvl
        else (s, [])) : ButtonState × List Event).1).clickPostponed
      = s.clickPostponed ∧
    (((if cfg.featureRepeatPress then checkRepeatPress cfg s now lvl
        else (s, [])) : ButtonState × List Event).1).longPressed
      = s.longPressed ∧
    (((if cfg.featureRepeatPress then checkRepeatPress cfg s now lvl
        else (s, [])) : ButtonState × List Event).1).doubleClicked
      = s.doubleClicked := by
  cases h : cfg.featureRepeatPress <;>
    simp [h, checkRepeatPress_proj]

/-- Helper: the feature-gated repeat-press stage can only emit
`RepeatPressed`, at the last confirmed level. -/
theorem repeatStage_events (cfg : ButtonConfig) (s : ButtonState) (now : Int)
    (lvl : Nat) :
    ∀ e ∈ ((if cfg.featureRepeatPress then checkRepeatPress cfg s now lvl
        else (s, [])) : ButtonState × List Event).2,
      e = (⟨kEventRepeatPressed, s.lastButtonState⟩ : Event) := by
  cases h : cfg.featureRepeatPress <;>
    rcases checkRepeatPress_cases cfg s now lvl with hc | hc | hc <;>
    simp [h, hc]

/-- Helper: on a sample whose level equals the last confirmed level, the
classification after the gate never reaches change detection: it preserves
the confirmed level, the debouncing flag and the debounce timestamp, and
emits no `Pressed`, `Released` or `LongReleased` event. -/
theorem checkEvent_noChange (cfg : ButtonConfig) (s : ButtonState)
    (now : Int) (lvl : Nat) (h : lvl = s.lastButtonState) :
    ((checkEvent cfg s now lvl).1).lastButtonState = s.lastButtonState ∧
    ((checkEvent cfg s now lvl).1).debouncing = s.debouncing ∧
    ((checkEvent cfg s now lvl).1).lastDebounceTime = s.lastDebounceTime ∧
    ∀ e ∈ (checkEvent cfg s now lvl).2,
      e.kind ≠ kEventPressed ∧ e.kind ≠ kEventReleased ∧
      e.kind ≠ kEventLongReleased := by
  subst h
  unfold checkEvent
  simp only [clickHousekeeping_proj, longStage_proj, repeatStage_proj,
    ne_eq, not_true_eq_false, if_false, ite_self]
  refine ⟨?_, ?_, ?_, ?_⟩
  · simp [repeatStage_proj, longStage_proj, clickHousekeeping_proj]
  · simp [repeatStage_proj, longStage_proj, clickHousekeeping_proj]
  · simp [repeatStage_proj, longStage_proj, clickHousekeeping_proj]
  · intro e he
    simp only [List.append_nil, List.mem_append] at he
    rcases he with (he | he) | he
    · have := clickHousekeeping_events cfg s now e he
      subst this
      simp
    · have := longStage_events cfg _ now s.lastButtonState e he
      subst this
      simp
    · have := repeatStage_events cfg _ now s.lastButtonState e he
      subst this
      simp

/-- Helper: the debounce gate while debouncing with the window still open:
the sample is suppressed and the state unchanged, whatever the raw level. -/
theorem checkDebounced_pending (cfg : ButtonConfig) (s : ButtonState)
    (now : Int) (lvl : Nat) (h1 : s.debouncing = true)
    (h2 : now - s.lastDebounceTime < cfg.debounceDelay) :
    checkDebounced cfg s now lvl = (s, false) := by
  unfold checkDebounced
  rw [if_pos h1]
  dsimp only
  rw [if_neg (by omega)]

/-- Helper: the debounce gate while debouncing with the window elapsed: the
flag is cleared and the sample confirmed, whatever the raw level. -/
theorem checkDebounced_settle (cfg : ButtonConfig) (s : ButtonState)
    (now : Int) (lvl : Nat) (h1 : s.debouncing = true)
    (h2 : now - s.lastDebounceTime ≥ cfg.debounceDelay) :
    checkDebounced cfg s now lvl = ({ s with debouncing := false }, true) := by
  unfold checkDebounced
  rw [if_pos h1]
  dsimp only
  rw [if_pos h2]

/-- Helper: the debounce gate when idle and the level unchanged: the fast
path confirms immediately without touching the state. -/
theorem checkDebounced_same (cfg : ButtonConfig) (s : ButtonState)
    (now : Int) (lvl : Nat) (h1 : s.debouncing = false)
    (h2 : lvl = s.lastButtonState) :
    checkDebounced cfg s now lvl = (s, true) := by
  unfold checkDebounced
  rw [if_neg (by simp [h1]), if_pos h2]

/-- Helper: the debounce gate when idle and the level changed: a settle
window begins and the sample is suppressed. -/
theorem checkDebounced_change (cfg : ButtonConfig) (s : ButtonState)
    (now : Int) (lvl : Nat) (h1 : s.debouncing = false)
    (h2 : lvl ≠ s.lastButtonState) :
    checkDebounced cfg s now lvl =
      ({ s with debouncing := true, lastDebounceTime := now }, false) := by
  unfold checkDebounced
  rw [if_neg (by simp [h1]), if_neg h2]

/-- Helper: the baseline stage on an already-baselined state. -/
theorem checkInitialized_known (s : ButtonState) (lvl : Nat)
    (h : s.lastButtonState ≠ kButtonStateUnknown) :
    checkInitialized s lvl = (s, true) := by
  unfold checkInitialized
  rw [if_pos h]

/-- Helper: the baseline stage on the unknown sentinel: absorb the level. -/
theorem checkInitialized_unknown (s : ButtonState) (lvl : Nat)
    (h : s.lastButtonState = kButtonStateUnknown) :
    checkInitialized s lvl = ({ s with lastButtonState := lvl }, false) := by
  unfold checkInitialized
  rw [if_neg (by simp [h])]

/-- Helper: one post-heartbeat gate-and-classify step on a sample whose
level either equals the current confirmed level `L` or falls inside the
debounce window that started at `t1`: the confirmed level stays `L`, any
debounce start is at time `t1` or later, and no `Pressed`/`Released` event
is dispatched. -/
theorem gateClassify_step (cfg : ButtonConfig) (s' : ButtonState)
    (now : Int) (l L : Nat) (t1 : Int) (hbev : List Event)
    (r : ButtonState × List Event)
    (hr : r = (let d := checkDebounced cfg s' now l
               if d.2 then
                 let i := checkInitialized d.1 l
                 if i.2 then
                   let e := checkEvent cfg i.1 now l
                   (e.1, hbev ++ e.2)
                 else (i.1, hbev)
               else (d.1, hbev)))
    (hL : s'.lastButtonState = L)
    (hD : s'.debouncing = true → t1 ≤ s'.lastDebounceTime)
    (ht : t1 ≤ now)
    (hcond : l = L ∨ now - t1 < cfg.debounceDelay)
    (hbev_ok : ∀ e ∈ hbev, e.kind = kEventHeartBeat) :
    (r.1).lastButtonState = L ∧
    ((r.1).debouncing = true → t1 ≤ (r.1).lastDebounceTime) ∧
    ∀ e ∈ r.2, e.kind ≠ kEventPressed ∧ e.kind ≠ kEventReleased := by
  subst hr
  by_cases h1 : s'.debouncing = true
  · by_cases h2 : now - s'.lastDebounceTime ≥ cfg.debounceDelay
    · have hl : l = L := by
        rcases hcond with hc | hc
        · exact hc
        · exfalso
          have := hD h1
          omega
      rw [checkDebounced_settle cfg s' now l h1 h2]
      dsimp only
      rw [if_pos rfl]
      by_cases h3 : s'.lastButtonState = kButtonStateUnknown
      · rw [checkInitialized_unknown _ l (by simpa using h3)]
        dsimp only
        rw [if_neg (by simp)]
        refine ⟨by simp [hl], by intro hd; simp at hd, ?_⟩
        intro e he
        simp [hbev_ok e he]
      · rw [checkInitialized_known _ l (by simpa using h3)]
        dsimp only
        rw [if_pos rfl]
        have hl2 : l = ({ s' with debouncing := false } :
            ButtonState).lastButtonState := by
          simp [hl, hL]
        obtain ⟨hn1, hn2, hn3, hn4⟩ := checkEvent_noChange cfg _ now l hl2
        refine ⟨?_, ?_, ?_⟩
        · rw [hn1]
          simp [hL]
        · rw [hn2]
          intro hd
          simp at hd
        · intro e he
          rcases List.mem_append.1 he with he | he
          · simp [hbev_ok e he]
          · exact ⟨(hn4 e he).1, (hn4 e he).2.1⟩
    · rw [checkDebounced_pending cfg s' now l h1 (by omega)]
      dsimp only
      rw [if_neg (by simp)]
      refine ⟨hL, fun _ => hD h1, ?_⟩
      intro e he
      simp [hbev_ok e he]
  · have h1f : s'.debouncing = false := by simpa using h1
    by_cases h4 : l = s'.lastButtonState
    · rw [checkDebounced_same cfg s' now l h1f h4]
      dsimp only
      rw [if_pos rfl]
      by_cases h3 : s'.lastButtonState = kButtonStateUnknown
      · rw [checkInitialized_unknown _ l h3]
        dsimp only
        rw [if_neg (by simp)]
        refine ⟨by simp [h4, hL], ?_, ?_⟩
        · intro hd
          rw [h1f] at hd
          simp at hd
        · intro e he
          simp [hbev_ok e he]
      · rw [checkInitialized_known _ l h3]
        dsimp only
        rw [if_pos rfl]
        obtain ⟨hn1, hn2, hn3, hn4⟩ := checkEvent_noChange cfg s' now l h4
        refine ⟨?_, ?_, ?_⟩
        · rw [hn1]
          exact hL
        · rw [hn2, h1f]
          intro hd
          simp at hd
        · intro e he
          rcases List.mem_append.1 he with he | he
          · simp [hbev_ok e he]
          · exact ⟨(hn4 e he).1, (hn4 e he).2.1⟩
    · rw [checkDebounced_change cfg s' now l h1f h4]
      dsimp only
      rw [if_neg (by simp)]
      refine ⟨by simp [hL], fun _ => by simpa using ht, ?_⟩
      intro e he
      simp [hbev_ok e he]

/-- Helper: one full classifier pass on a sample whose level equals the
confirmed level `L` or lies inside the debounce window opened at `t1`:
the confirmed level stays `L`, any active debounce started at `t1` or
later, and no `Pressed`/`Released` event is dispatched. -/
theorem checkState_no_change_step (cfg : ButtonConfig) (s : ButtonState)
    (now : Int) (l L : Nat) (t1 : Int)
    (hL : s.lastButtonState = L)
    (hD : s.debouncing = true → t1 ≤ s.lastDebounceTime)
    (ht : t1 ≤ now)
    (hcond : l = L ∨ now - t1 < cfg.debounceDelay) :
    ((checkState cfg s now l).1).lastButtonState = L ∧
    (((checkState cfg s now l).1).debouncing = true →
      t1 ≤ ((checkState cfg s now l).1).lastDebounceTime) ∧
    ∀ e ∈ (checkState cfg s now l).2,
      e.kind ≠ kEventPressed ∧ e.kind ≠ kEventReleased := by
  refine gateClassify_step cfg (checkHeartBeat cfg s now).1 now l L t1
      (checkHeartBeat cfg s now).2 (checkState cfg s now l) rfl ?_ ?_ ht
      hcond ?_
  · rcases checkHeartBeat_cases cfg s now with hh | hh | hh <;>
      rw [hh] <;> simpa using hL
  · rcases checkHeartBeat_cases cfg s now with hh | hh | hh <;>
      rw [hh] <;> simpa using hD
  · rcases checkHeartBeat_cases cfg s now with hh | hh | hh <;>
      rw [hh] <;> simp

/-- Helper: over a run of samples, each of which either shows the confirmed
level `L` or lies inside the debounce window opened at `t1`, no `Pressed`
or `Released` event is ever dispatched. -/
theorem runSamples_no_change (cfg : ButtonConfig) (L : Nat) (t1 : Int) :
    ∀ (samples : List (Int × Nat)) (s : ButtonState),
      s.lastButtonState = L →
      (s.debouncing = true → t1 ≤ s.lastDebounceTime) →
      (∀ p ∈ samples, t1 ≤ p.1 ∧ (p.2 = L ∨ p.1 - t1 < cfg.debounceDelay)) →
      ∀ e ∈ (runSamples cfg s samples).2,
        e.kind ≠ kEventPressed ∧ e.kind ≠ kEventReleased := by
  intro samples
  induction samples with
  | nil =>
      intro s hL hD hall e he
      simp [runSamples] at he
  | cons p rest ih =>
      intro s hL hD hall e he
      obtain ⟨hp1, hp2⟩ := hall p (List.mem_cons_self p rest)
      obtain ⟨k1, k2, k3⟩ :=
        checkState_no_change_step cfg s p.1 p.2 L t1 hL hD hp1 hp2
      rw [runSamples] at he
      dsimp only at he
      rcases List.mem_append.1 he with he | he
      · exact k3 e he
      · exact ih (checkState cfg s p.1 p.2).1 k1 k2
          (fun q hq => hall q (List.mem_cons_of_mem p hq)) e he

/-- C9: the source's `eventName` does not map the enumerated event codes to
their display strings: it returns `"(unknown)"` even for in-range codes
(the lookup into `sEventNames` is commented out in `AceButton.cpp`), while
the `sEventNames` table it was meant to consult does carry the eight
display strings. Code 0 (`kEventPressed`) is a failing input. -/
theorem c9_eventName_ignores_table :
    eventName 0 = sEventUnknown ∧ eventName 7 = sEventUnknown ∧
    sEventNames.length = 8 ∧ sEventNames.get? 0 = some "Pressed" ∧
    sEventNames.get? 7 = some "HeartBeat" ∧ sEventUnknown ∉ sEventNames := by
  decide

/-- C8: the elapsed-time computations are signed `int64_t` subtractions, not
fixed-width unsigned subtraction. With a 16-bit wrapping time source that
recorded `lastDebounceTime = 65530` and then wrapped to `now = 4`, the true
elapsed time is 10 ticks (equal to the configured debounce delay), which the
spec's unsigned 16-bit subtraction computes; the source's signed subtraction
instead yields `-65526`, so the gate never confirms for any value a 16-bit
clock can produce. -/
theorem c8_signed_elapsed_breaks_wraparound :
    (∀ now : Int, 0 ≤ now → now < 65536 →
        checkDebounced wrapConfig wrapState now HIGH = (wrapState, false)) ∧
    wrapElapsed16 4 65530 = 10 ∧ wrapConfig.debounceDelay = 10 := by
  refine ⟨?_, by decide, by decide⟩
  intro now h0 h1
  simp only [checkDebounced, wrapState, wrapConfig, heldState, sampleConfig]
  norm_num
  omega

/-- C8 witness: the failing input itself, `now = 4` after the wrap. -/
theorem c8_signed_elapsed_breaks_wraparound_witness :
    checkDebounced wrapConfig wrapState 4 HIGH = (wrapState, false) :=
  c8_signed_elapsed_breaks_wraparound.1 4 (by decide) (by decide)

/-- C1 counterexample: a confirmed release at time 50 (held state, click
feature enabled, press recorded at time 0, so the release is a fresh single
click) leaves the Clicked flag set when the classification pass finishes —
refuting the claim that Clicked (and ClickPostponed) are among the flags
that are always clear after release handling. -/
theorem c1_counterexample :
    ((checkState sampleConfig debouncingHeldState 50 HIGH).1).clicked = true
      := by decide

/-- C1 (amended): release handling clears the Pressed, LongPressed,
RepeatPressed and DoubleClicked flags atomically; the Debouncing flag is not
touched by release handling but is already false on any sample the debounce
gate confirms; Clicked and ClickPostponed are managed independently by the
click logic and may remain set when release handling finishes. -/
theorem c1_release_flag_clearing :
    (∀ cfg s now lvl, lvl = getDefaultReleasedState s →
      ((checkReleased cfg s now lvl).1).pressed = false ∧
      ((checkReleased cfg s now lvl).1).longPressed = false ∧
      ((checkReleased cfg s now lvl).1).repeatPressed = false ∧
      ((checkReleased cfg s now lvl).1).doubleClicked = false ∧
      ((checkReleased cfg s now lvl).1).debouncing = s.debouncing) ∧
    (∀ cfg s now lvl, (checkDebounced cfg s now lvl).2 = true →
      ((checkDebounced cfg s now lvl).1).debouncing = false) := by
  constructor
  · intro cfg s now lvl h
    unfold checkReleased
    rw [if_neg (by simp [h])]
    dsimp only
    split_ifs <;> simp [handleEvent, releaseClickPhase_proj]
  · intro cfg s now lvl h
    simp only [checkDebounced] at h ⊢
    split_ifs at h ⊢ with h1 h2 <;> simp_all

/-- C1 witness: the amended statement at a concrete confirmed release. -/
theorem c1_release_flag_clearing_witness :
    (((checkReleased sampleConfig heldState 50 HIGH).1).pressed = false ∧
     ((checkReleased sampleConfig heldState 50 HIGH).1).longPressed = false ∧
     ((checkReleased sampleConfig heldState 50 HIGH).1).repeatPressed
        = false ∧
     ((checkReleased sampleConfig heldState 50 HIGH).1).doubleClicked
        = false ∧
     ((checkReleased sampleConfig heldState 50 HIGH).1).debouncing
        = heldState.debouncing) ∧
    ((checkDebounced sampleConfig heldState 50 0).1).debouncing = false :=
  ⟨c1_release_flag_clearing.1 sampleConfig heldState 50 HIGH (by decide),
   c1_release_flag_clearing.2 sampleConfig heldState 50 0 (by decide)⟩

/-- C3 counterexample: with both the Click and the DoubleClick feature
disabled, a confirmed sample long after the double-click window does not run
the housekeeping passes, and a stale Clicked flag (recorded at time 0,
sample at time 10000, window 400) survives — refuting the claim that the
housekeeping passes run on every confirmed sample regardless of which of
the two features is enabled. -/
theorem c3_counterexample :
    ((checkEvent noClickConfig staleClickedState 10000 1).1).clicked = true
      := by decide

/-- C3 (amended): the two housekeeping passes run on every confirmed
initialized sample whenever at least one of Click/DoubleClick is enabled —
irrespective of which one — so under that condition a stale Clicked flag is
reclaimed and a stale ClickPostponed flag is flushed (emitting the deferred
Clicked) once its doubleClickDelay window elapsed; with both features
disabled the passes are skipped. -/
theorem c3_housekeeping_runs_when_click_features_on :
    ∀ cfg s now lvl,
      (cfg.featureClick = true ∨ cfg.featureDoubleClick = true) →
      lvl = s.lastButtonState →
      now - s.lastClickTime ≥ cfg.doubleClickDelay →
      ((checkEvent cfg s now lvl).1).clicked = false ∧
      ((checkEvent cfg s now lvl).1).clickPostponed = false ∧
      (s.clickPostponed = true →
        kEventClicked ∈ (checkEvent cfg s now lvl).2.map Event.kind) := by
  intro cfg s now lvl hf hl hw
  simp only [checkEvent, clickHousekeeping, if_pos hf,
    checkPostponedClick_eq, checkOrphanedClick_eq]
  split_ifs <;>
    simp_all [checkLongPress_proj, checkRepeatPress_proj, List.mem_append]

/-- C3 witness: the amended statement at a concrete stale click (click
feature on, double click off, window long expired). -/
theorem c3_housekeeping_runs_when_click_features_on_witness :
    ((checkEvent sampleConfig staleClickedState 10000 1).1).clicked
      = false ∧
    ((checkEvent sampleConfig staleClickedState 10000 1).1).clickPostponed
      = false ∧
    (staleClickedState.clickPostponed = true →
      kEventClicked ∈
        (checkEvent sampleConfig staleClickedState 10000 1).2.map
          Event.kind) :=
  c3_housekeeping_runs_when_click_features_on sampleConfig staleClickedState
    10000 1 (Or.inl (by decide)) (by decide) (by decide)

/-- C2 counterexample: at a confirmed no-change sample where both a
postponed-click flush and a long press fire (postponed click from time 0,
press from time 0, sample at time 1000, doubleClickDelay 400, longPressDelay
1000), the source dispatches `Clicked` before `LongPressed` because the
click cleanup runs before long-press detection; the spec's stage order
(long-press and repeat-press before click cleanup) would dispatch them in
the opposite order. -/
theorem c2_counterexample :
    checkState orderConfig postponedState 1000 0 ≠
      checkStateClaimOrder orderConfig postponedState 1000 0 := by decide

/-- C2 (amended): the classifier runs the heartbeat check first and
unconditionally, then the debounce gate; only when the gate accepts the
sample do the remaining stages run, in the source's order: baseline
establishment, click cleanup (postponed flush then orphan reclaim, when a
click feature is enabled), long-press detection, repeat-press detection,
and change detection. -/
theorem c2_classifier_stage_order :
    ∀ cfg s now lvl,
      checkState cfg s now lvl =
        (let h := checkHeartBeat cfg s now
         let d := checkDebounced cfg h.1 now lvl
         if d.2 then
           let i := checkInitialized d.1 lvl
           if i.2 then
             let a := if cfg.featureClick ∨ cfg.featureDoubleClick then
                 (let p := checkPostponedClick cfg i.1 now
                  let q := checkOrphanedClick cfg p.1 now
                  (q.1, p.2 ++ q.2))
               else (i.1, [])
             let b := if cfg.featureLongPress
               then checkLongPress cfg a.1 now lvl else (a.1, [])
             let c := if cfg.featureRepeatPress
               then checkRepeatPress cfg b.1 now lvl else (b.1, [])
             let e := if lvl ≠ c.1.lastButtonState
               then checkChanged cfg c.1 now lvl else (c.1, [])
             (e.1, h.2 ++ (a.2 ++ b.2 ++ c.2 ++ e.2))
           else (i.1, h.2)
         else (d.1, h.2)) := by
  intro cfg s now lvl
  rfl

/-- C6: the debounce gate: when idle, a sample at the confirmed level is
confirmed immediately with no state change; a differing sample records
`lastDebounceTime = now`, sets the Debouncing flag and is suppressed; while
debouncing the gate ignores the raw level entirely (the result is the same
for any two levels) and suppresses samples until
`now - lastDebounceTime >= debounceDelay`, at which point it clears the
flag and confirms. Consequently, raw-level oscillations confined to one
debounce window (every sample either shows the confirmed level or falls
inside the window opened at `t1`) produce zero `Pressed`/`Released`
events. -/
theorem c6_debounce_gate_behavior :
    (∀ cfg s now lvl, s.debouncing = false → lvl = s.lastButtonState →
        checkDebounced cfg s now lvl = (s, true)) ∧
    (∀ cfg s now lvl, s.debouncing = false → lvl ≠ s.lastButtonState →
        checkDebounced cfg s now lvl =
          ({ s with debouncing := true, lastDebounceTime := now }, false)) ∧
    (∀ cfg s now lvl lvl2, s.debouncing = true →
        now - s.lastDebounceTime < cfg.debounceDelay →
        checkDebounced cfg s now lvl = (s, false) ∧
        checkDebounced cfg s now lvl = checkDebounced cfg s now lvl2) ∧
    (∀ cfg s now lvl, s.debouncing = true →
        now - s.lastDebounceTime ≥ cfg.debounceDelay →
        checkDebounced cfg s now lvl =
          ({ s with debouncing := false }, true)) ∧
    (∀ cfg (L : Nat) (t1 : Int) samples s,
        s.lastButtonState = L →
        (s.debouncing = true → t1 ≤ s.lastDebounceTime) →
        (∀ p ∈ samples,
          t1 ≤ p.1 ∧ (p.2 = L ∨ p.1 - t1 < cfg.debounceDelay)) →
        ∀ e ∈ (runSamples cfg s samples).2,
          e.kind ≠ kEventPressed ∧ e.kind ≠ kEventReleased) := by
  refine ⟨fun cfg s now lvl h1 h2 => checkDebounced_same cfg s now lvl h1 h2,
    fun cfg s now lvl h1 h2 => checkDebounced_change cfg s now lvl h1 h2,
    fun cfg s now lvl lvl2 h1 h2 =>
      ⟨checkDebounced_pending cfg s now lvl h1 h2,
       by rw [checkDebounced_pending cfg s now lvl h1 h2,
              checkDebounced_pending cfg s now lvl2 h1 h2]⟩,
    fun cfg s now lvl h1 h2 => checkDebounced_settle cfg s now lvl h1 h2,
    fun cfg L t1 samples s h1 h2 h3 =>
      runSamples_no_change cfg L t1 samples s h1 h2 h3⟩

/-- C6 witness: the four gate behaviors and the oscillation consequence at
concrete inputs (a bounce to `HIGH` and back, all within the 20 tick
window). -/
theorem c6_debounce_gate_behavior_witness :
    checkDebounced sampleConfig heldState 50 0 = (heldState, true) ∧
    checkDebounced sampleConfig heldState 50 1 =
      ({ heldState with debouncing := true, lastDebounceTime := 50 },
        false) ∧
    checkDebounced sampleConfig debouncingHeldState 30 1 =
      (debouncingHeldState, false) ∧
    checkDebounced sampleConfig debouncingHeldState 50 1 =
      ({ debouncingHeldState with debouncing := false }, true) ∧
    ¬ ((⟨kEventPressed, 0⟩ : Event) ∈
        (runSamples sampleConfig heldState
          [(5, 1), (10, 0), (15, 1), (40, 0)]).2) :=
  ⟨c6_debounce_gate_behavior.1 sampleConfig heldState 50 0 (by decide)
      (by decide),
   c6_debounce_gate_behavior.2.1 sampleConfig heldState 50 1 (by decide)
      (by decide),
   (c6_debounce_gate_behavior.2.2.1 sampleConfig debouncingHeldState 30 1 1
      (by decide) (by decide)).1,
   c6_debounce_gate_behavior.2.2.2.1 sampleConfig debouncingHeldState 50 1
      (by decide) (by decide),
   fun hmem =>
     (c6_debounce_gate_behavior.2.2.2.2 sampleConfig 0 5
        [(5, 1), (10, 0), (15, 1), (40, 0)] heldState (by decide)
        (by decide) (by decide) _ hmem).1 rfl⟩

/-- Helper: double-click evaluation emits nothing or one `DoubleClicked`
event at the last confirmed level. -/
theorem checkDoubleClicked_events (cfg : ButtonConfig) (s : ButtonState)
    (now : Int) :
    (checkDoubleClicked cfg s now).2 = [] ∨
    (checkDoubleClicked cfg s now).2 =
      [⟨kEventDoubleClicked, s.lastButtonState⟩] := by
  unfold checkDoubleClicked handleEvent
  split_ifs <;> simp

/-- Helper: click evaluation emits nothing, one `Clicked`, one
`DoubleClicked`, or `DoubleClicked` followed by `Clicked`, all at the last
confirmed level. -/
theorem checkClicked_events (cfg : ButtonConfig) (s : ButtonState)
    (now : Int) :
    (checkClicked cfg s now).2 = [] ∨
    (checkClicked cfg s now).2 = [⟨kEventClicked, s.lastButtonState⟩] ∨
    (checkClicked cfg s now).2 =
      [⟨kEventDoubleClicked, s.lastButtonState⟩] ∨
    (checkClicked cfg s now).2 =
      [⟨kEventDoubleClicked, s.lastButtonState⟩,
       ⟨kEventClicked, s.lastButtonState⟩] := by
  unfold checkClicked handleEvent
  cases hdc : cfg.featureDoubleClick <;>
    rcases checkDoubleClicked_events cfg s now with hd | hd <;>
    split_ifs <;>
    simp_all [checkDoubleClicked_proj] <;>
    split_ifs <;>
    simp_all [checkDoubleClicked_proj]

/-- Helper: the click phase of the release detector never emits `Released`
or `LongReleased`. -/
theorem releaseClickPhase_no_release (cfg : ButtonConfig) (s : ButtonState)
    (now : Int) :
    kEventReleased ∉ (releaseClickPhase cfg s now).2.map Event.kind ∧
    kEventLongReleased ∉ (releaseClickPhase cfg s now).2.map Event.kind := by
  unfold releaseClickPhase
  split_ifs
  · rcases checkClicked_events cfg s now with h | h | h | h <;> simp [h]
  · simp

/-- C5: on a confirmed release, the `Released` event is suppressed exactly
when one of the LongPressed / RepeatPressed / Clicked / DoubleClicked flags
(as they stand after the click evaluation of this very release) is set with
its suppress-after feature enabled; when suppressed after a long press the
detector emits `LongReleased` instead, when suppressed without a long press
it emits nothing, otherwise it emits `Released`; it never emits both. -/
theorem c5_release_suppression (cfg : ButtonConfig) (s : ButtonState)
    (now : Int) (lvl : Nat) (h : lvl = getDefaultReleasedState s) :
    (releaseSuppress cfg ((releaseClickPhase cfg s now).1) = true ↔
      ((((releaseClickPhase cfg s now).1).longPressed = true ∧
          cfg.featureSuppressAfterLongPress = true) ∨
       (((releaseClickPhase cfg s now).1).repeatPressed = true ∧
          cfg.featureSuppressAfterRepeatPress = true) ∨
       (((releaseClickPhase cfg s now).1).clicked = true ∧
          cfg.featureSuppressAfterClick = true) ∨
       (((releaseClickPhase cfg s now).1).doubleClicked = true ∧
          cfg.featureSuppressAfterDoubleClick = true))) ∧
    (kEventReleased ∈ (checkReleased cfg s now lvl).2.map Event.kind ↔
      releaseSuppress cfg ((releaseClickPhase cfg s now).1) = false) ∧
    (kEventLongReleased ∈ (checkReleased cfg s now lvl).2.map Event.kind ↔
      (releaseSuppress cfg ((releaseClickPhase cfg s now).1) = true ∧
       ((releaseClickPhase cfg s now).1).longPressed = true)) ∧
    ¬ (kEventReleased ∈ (checkReleased cfg s now lvl).2.map Event.kind ∧
       kEventLongReleased ∈
         (checkReleased cfg s now lvl).2.map Event.kind) := by
  obtain ⟨hnr, hnl⟩ := releaseClickPhase_no_release cfg s now
  refine ⟨?_, ?_⟩
  · unfold releaseSuppress
    simp only [Bool.or_eq_true, Bool.and_eq_true]
    tauto
  · unfold checkReleased
    rw [if_neg (by simp [h])]
    dsimp only
    split_ifs with hs hw <;>
      simp_all [handleEvent, List.mem_append]

/-- C5 witness: the suppression characterization at a concrete release. -/
theorem c5_release_suppression_witness :
    (kEventReleased ∈
        (checkReleased sampleConfig heldState 50 HIGH).2.map Event.kind ↔
      releaseSuppress sampleConfig
        ((releaseClickPhase sampleConfig heldState 50).1) = false) ∧
    ¬ (kEventReleased ∈
         (checkReleased sampleConfig heldState 50 HIGH).2.map Event.kind ∧
       kEventLongReleased ∈
         (checkReleased sampleConfig heldState 50 HIGH).2.map Event.kind) :=
  ⟨(c5_release_suppression sampleConfig heldState 50 HIGH (by decide)).2.1,
   (c5_release_suppression sampleConfig heldState 50 HIGH
      (by decide)).2.2.2⟩

/-- Helper: press detection either does nothing or records the press and
emits one `Pressed` event at the last confirmed level. -/
theorem checkPressed_cases (s : ButtonState) (now : Int) (lvl : Nat) :
    checkPressed s now lvl = (s, []) ∨
    checkPressed s now lvl =
      ({ s with lastPressTime := now, pressed := true },
       [⟨kEventPressed, s.lastButtonState⟩]) := by
  unfold checkPressed handleEvent
  split_ifs <;> simp

/-- Helper: every event of the release detector's click phase carries the
last confirmed level. -/
theorem releaseClickPhase_levels (cfg : ButtonConfig) (s : ButtonState)
    (now : Int) :
    ∀ e ∈ (releaseClickPhase cfg s now).2, e.level = s.lastButtonState := by
  unfold releaseClickPhase
  split_ifs
  · rcases checkClicked_events cfg s now with h | h | h | h <;> simp [h]
  · simp

/-- Helper: every event of the release detector carries the last confirmed
level. -/
theorem checkReleased_levels (cfg : ButtonConfig) (s : ButtonState)
    (now : Int) (lvl : Nat) :
    ∀ e ∈ (checkReleased cfg s now lvl).2, e.level = s.lastButtonState := by
  unfold checkReleased
  dsimp only
  split_ifs <;> intro e he
  · simp at he
  · rcases List.mem_append.1 he with he | he
    · exact releaseClickPhase_levels cfg s now e he
    · simp only [handleEvent, List.mem_singleton] at he
      subst he
      simp [releaseClickPhase_proj]
  · exact releaseClickPhase_levels cfg s now e he
  · rcases List.mem_append.1 he with he | he
    · exact releaseClickPhase_levels cfg s now e he
    · simp only [handleEvent, List.mem_singleton] at he
      subst he
      simp [releaseClickPhase_proj]

/-- C10: every dispatched event carries `mLastButtonState` at dispatch time,
never the raw sample level: the dispatch primitive always reads the last
confirmed level; on a confirmed change that level is updated before press
and release detection, so every event of the change classifier reports the
newly confirmed level; a heartbeat event reports the level confirmed before
it fired, and on a sample the gate rejects the pass dispatches exactly the
heartbeat events while `mLastButtonState` keeps its pre-sample value. -/
theorem c10_dispatch_level :
    (∀ (s : ButtonState) (k : EventKind),
      (handleEvent s k).2 = [⟨k, s.lastButtonState⟩]) ∧
    (∀ cfg s now lvl, ∀ e ∈ (checkChanged cfg s now lvl).2,
      e.level = lvl) ∧
    (∀ cfg s now,
      (∀ e ∈ (checkHeartBeat cfg s now).2,
        e.kind = kEventHeartBeat ∧ e.level = s.lastButtonState) ∧
      ((checkHeartBeat cfg s now).1).lastButtonState = s.lastButtonState) ∧
    (∀ cfg s now lvl,
      (checkDebounced cfg ((checkHeartBeat cfg s now).1) now lvl).2 =
          false →
      (checkState cfg s now lvl).2 = (checkHeartBeat cfg s now).2 ∧
      ((checkState cfg s now lvl).1).lastButtonState =
        s.lastButtonState) := by
  refine ⟨fun s k => rfl, ?_, ?_, ?_⟩
  · intro cfg s now lvl e he
    unfold checkChanged at he
    dsimp only at he
    rcases List.mem_append.1 he with he | he
    · rcases checkPressed_cases { s with lastButtonState := lvl } now lvl
        with hp | hp <;> rw [hp] at he
      · simp at he
      · simp only [List.mem_singleton] at he
        subst he
        simp
    · have hlev := checkReleased_levels cfg
        (checkPressed { s with lastButtonState := lvl } now lvl).1 now lvl
        e he
      rcases checkPressed_cases { s with lastButtonState := lvl } now lvl
        with hp | hp <;> rw [hp] at hlev <;> simpa using hlev
  · intro cfg s now
    rcases checkHeartBeat_cases cfg s now with hh | hh | hh <;>
      rw [hh] <;> simp
  · intro cfg s now lvl hf
    unfold checkState
    dsimp only
    rw [hf]
    rw [if_neg (by simp)]
    refine ⟨rfl, ?_⟩
    have h1 := (checkDebounced_proj cfg ((checkHeartBeat cfg s now).1) now
      lvl).1
    rw [h1]
    rcases checkHeartBeat_cases cfg s now with hh | hh | hh <;>
      rw [hh] <;> simp

/-- C10 witness: a pending-debounce pass dispatches only the heartbeat
events and keeps the pre-sample confirmed level. -/
theorem c10_dispatch_level_witness :
    (checkState sampleConfig debouncingHeldState 30 1).2 =
      (checkHeartBeat sampleConfig debouncingHeldState 30).2 ∧
    ((checkState sampleConfig debouncingHeldState 30 1).1).lastButtonState =
      debouncingHeldState.lastButtonState :=
  c10_dispatch_level.2.2.2 sampleConfig debouncingHeldState 30 1 (by decide)

/-- Helper: with no click pending and no postponed click, click housekeeping
is a no-op. -/
theorem clickHousekeeping_inert (cfg : ButtonConfig) (s : ButtonState)
    (now : Int) (h1 : s.clicked = false) (h2 : s.clickPostponed = false) :
    clickHousekeeping cfg s now = (s, []) := by
  unfold clickHousekeeping
  simp only [checkPostponedClick_eq, checkOrphanedClick_eq]
  split_ifs <;> simp_all

/-- Helper: press detection at the released polarity is a no-op. -/
theorem checkPressed_skip (s : ButtonState) (now : Int) (lvl : Nat)
    (h : lvl = getDefaultReleasedState s) :
    checkPressed s now lvl = (s, []) := by
  unfold checkPressed
  rw [if_pos h]

/-- Helper: press detection at the pressed polarity records the press and
emits `Pressed`. -/
theorem checkPressed_hit (s : ButtonState) (now : Int) (lvl : Nat)
    (h : lvl ≠ getDefaultReleasedState s) :
    checkPressed s now lvl =
      ({ s with lastPressTime := now, pressed := true },
       [⟨kEventPressed, s.lastButtonState⟩]) := by
  unfold checkPressed handleEvent
  rw [if_neg h]

/-- Helper: release detection at the pressed polarity is a no-op. -/
theorem checkReleased_skip (cfg : ButtonConfig) (s : ButtonState)
    (now : Int) (lvl : Nat) (h : lvl ≠ getDefaultReleasedState s) :
    checkReleased cfg s now lvl = (s, []) := by
  unfold checkReleased
  rw [if_pos h]

/-- Helper: double-click evaluation with no click pending just clears the
DoubleClicked flag. -/
theorem checkDoubleClicked_notClicked (cfg : ButtonConfig) (s : ButtonState)
    (now : Int) (h1 : s.clicked = false) :
    checkDoubleClicked cfg s now = ({ s with doubleClicked := false }, []) := by
  unfold checkDoubleClicked
  rw [if_pos (by simp [h1])]

/-- Helper: click evaluation started with no click pending and no
double-click pending cannot end with the DoubleClicked flag set. -/
theorem checkClicked_dcFalse (cfg : ButtonConfig) (s : ButtonState)
    (now : Int) (h1 : s.clicked = false) (h2 : s.doubleClicked = false) :
    ((checkClicked cfg s now).1).doubleClicked = false := by
  unfold checkClicked
  dsimp only
  cases hf : cfg.featureDoubleClick
  · simp only [Bool.false_eq_true, if_false]
    split_ifs <;> simp_all [handleEvent]
  · simp only [if_true]
    rw [checkDoubleClicked_notClicked cfg s now h1]
    split_ifs <;> simp_all [handleEvent]

/-- Helper: the release click phase started with no click pending and no
double-click pending cannot end with the DoubleClicked flag set. -/
theorem releaseClickPhase_dcFalse (cfg : ButtonConfig) (s : ButtonState)
    (now : Int) (h1 : s.clicked = false) (h2 : s.doubleClicked = false) :
    ((releaseClickPhase cfg s now).1).doubleClicked = false := by
  unfold releaseClickPhase
  split_ifs
  · exact checkClicked_dcFalse cfg s now h1 h2
  · exact h2

/-- Helper: every event of the release click phase is a `Clicked` or a
`DoubleClicked`. -/
theorem releaseClickPhase_kind_mem (cfg : ButtonConfig) (s : ButtonState)
    (now : Int) :
    ∀ e ∈ (releaseClickPhase cfg s now).2,
      e.kind = kEventClicked ∨ e.kind = kEventDoubleClicked := by
  unfold releaseClickPhase
  split_ifs
  · rcases checkClicked_events cfg s now with h | h | h | h <;> simp [h]
  · simp

/-- Helper: long-press detection at the released polarity is a no-op. -/
theorem checkLongPress_skip (cfg : ButtonConfig) (s : ButtonState)
    (now : Int) (lvl : Nat) (h : lvl = getDefaultReleasedState s) :
    checkLongPress cfg s now lvl = (s, []) := by
  unfold checkLongPress
  rw [if_pos h]

/-- Helper: repeat-press detection at the released polarity is a no-op. -/
theorem checkRepeatPress_skip (cfg : ButtonConfig) (s : ButtonState)
    (now : Int) (lvl : Nat) (h : lvl = getDefaultReleasedState s) :
    checkRepeatPress cfg s now lvl = (s, []) := by
  unfold checkRepeatPress
  rw [if_pos h]

/-- Helper: a confirmed change of level on a clean hold state (no gesture
flags pending, suppress-after-click disabled) produces the `Pressed` event
and no `Released` when the new level is the pressed polarity, and the
`Released` event and no `Pressed` when it is the released polarity. -/
theorem changePass_boot (cfg : ButtonConfig) (Y : ButtonState) (now : Int)
    (lvl : Nat)
    (hne : lvl ≠ Y.lastButtonState)
    (hlp : Y.longPressed = false) (hrp : Y.repeatPressed = false)
    (hc : Y.clicked = false) (hdc : Y.doubleClicked = false)
    (hcp : Y.clickPostponed = false)
    (hsac : cfg.featureSuppressAfterClick = false) :
    (lvl ≠ getDefaultReleasedState Y →
      kEventPressed ∈ (checkEvent cfg Y now lvl).2.map Event.kind ∧
      kEventReleased ∉ (checkEvent cfg Y now lvl).2.map Event.kind) ∧
    (lvl = getDefaultReleasedState Y →
      kEventReleased ∈ (checkEvent cfg Y now lvl).2.map Event.kind ∧
      kEventPressed ∉ (checkEvent cfg Y now lvl).2.map Event.kind) := by
  unfold checkEvent
  dsimp only
  rw [clickHousekeeping_inert cfg Y now hc hcp]
  dsimp only
  obtain ⟨hb1, hb2, hb3, hb4, hb5, hb6, hb7, hb8⟩ :=
    longStage_proj cfg Y now lvl
  have hbev := longStage_events cfg Y now lvl
  set b := (if cfg.featureLongPress then checkLongPress cfg Y now lvl
    else (Y, [])) with hbdef
  obtain ⟨hc1, hc2, hc3, hc4, hc5, hc6, hc7, hc8⟩ :=
    repeatStage_proj cfg b.1 now lvl
  have hcev := repeatStage_events cfg b.1 now lvl
  set c := (if cfg.featureRepeatPress then checkRepeatPress cfg b.1 now lvl
    else (b.1, [])) with hcdef
  have hclbs : c.1.lastButtonState = Y.lastButtonState := by
    rw [hc1, hb1]
  have hcdrh : c.1.defaultReleasedHigh = Y.defaultReleasedHigh := by
    rw [hc4, hb4]
  have hcdef2 : getDefaultReleasedState c.1 = getDefaultReleasedState Y := by
    unfold getDefaultReleasedState
    rw [hcdrh]
  rw [if_pos (by rw [hclbs]; exact hne)]
  unfold checkChanged
  dsimp only
  constructor
  · intro hpol
    rw [checkPressed_hit _ now lvl (by
      unfold getDefaultReleasedState at hpol ⊢
      dsimp only
      rw [hcdrh]
      exact hpol)]
    dsimp only
    rw [checkReleased_skip cfg _ now lvl (by
      unfold getDefaultReleasedState at hpol ⊢
      dsimp only
      rw [hcdrh]
      exact hpol)]
    constructor
    · simp
    · intro hmem
      simp only [List.nil_append, List.append_nil, List.map_append,
        List.mem_append, List.map_cons, List.map_nil,
        List.mem_singleton] at hmem
      rcases hmem with (hmem | hmem) | hmem
      · rcases List.mem_map.1 hmem with ⟨e, he, hk⟩
        rw [hbev e he] at hk
        simp at hk
      · rcases List.mem_map.1 hmem with ⟨e, he, hk⟩
        rw [hcev e he] at hk
        simp at hk
      · simp at hmem
  · intro hpol
    have hbY : b = (Y, []) := by
      rw [hbdef]
      cases hf : cfg.featureLongPress <;>
        simp [hf, checkLongPress_skip cfg Y now lvl hpol]
    have hcY : c = (Y, []) := by
      rw [hcdef, hbY]
      cases hf : cfg.featureRepeatPress <;>
        simp [hf, checkRepeatPress_skip cfg Y now lvl hpol]
    rw [hcY, hbY]
    dsimp only
    rw [checkPressed_skip _ now lvl (by
      unfold getDefaultReleasedState at hpol ⊢
      dsimp only
      exact hpol)]
    dsimp only
    unfold checkReleased
    rw [if_neg (by
      simp only [ne_eq, not_not]
      unfold getDefaultReleasedState at hpol ⊢
      dsimp only
      exact hpol)]
    dsimp only
    obtain ⟨r1, r2, r3, r4, r5, r6⟩ :=
      releaseClickPhase_proj cfg { Y with lastButtonState := lvl } now
    have hdc1 : ((releaseClickPhase cfg { Y with lastButtonState := lvl }
        now).1).doubleClicked = false :=
      releaseClickPhase_dcFalse cfg _ now (by simpa using hc)
        (by simpa using hdc)
    have hsup : releaseSuppress cfg
        ((releaseClickPhase cfg { Y with lastButtonState := lvl }
          now).1) = false := by
      unfold releaseSuppress
      rw [r5, r6, hdc1]
      dsimp only
      rw [hlp, hrp]
      simp [hsac]
    rw [hsup]
    rw [if_neg (by simp)]
    constructor
    · simp [handleEvent]
    · intro hmem
      simp only [List.nil_append, List.append_nil, List.map_append,
        List.mem_append, handleEvent, List.map_cons, List.map_nil,
        List.mem_singleton] at hmem
      rcases hmem with hmem | hmem
      · rcases List.mem_map.1 hmem with ⟨e, he, hk⟩
        rcases releaseClickPhase_kind_mem cfg _ now e he with hk2 | hk2 <;>
          rw [hk2] at hk <;> simp at hk
      · simp at hmem

/-- C7 counterexample: the claim fails as stated. Board booted with the
switch held (baseline `LOW`, boot-clean flags and timestamps), click and
suppress-after-click features enabled: the gate-confirmed differing sample
at time 30 is at the released polarity, yet the pass emits no `Released`
(nor `Pressed`) — `checkClicked` classifies the release as a click against
the boot-zero `mLastPressTime` and the suppression of
`AceButton.cpp:303-304` then swallows `Released`; only a spurious
`Clicked` fires. -/
theorem c7_counterexample :
    heldBootState.lastButtonState ≠ kButtonStateUnknown ∧
    (1 : Nat) ≠ heldBootState.lastButtonState ∧
    (checkDebounced suppressAfterClickConfig
      ((checkHeartBeat suppressAfterClickConfig heldBootState 30).1) 30
      1).2 = true ∧
    (1 : Nat) = getDefaultReleasedState heldBootState ∧
    heldBootState.longPressed = false ∧
    heldBootState.repeatPressed = false ∧
    heldBootState.clicked = false ∧
    heldBootState.doubleClicked = false ∧
    heldBootState.clickPostponed = false ∧
    kEventReleased ∉
      (checkState suppressAfterClickConfig heldBootState 30 1).2.map
        Event.kind ∧
    kEventPressed ∉
      (checkState suppressAfterClickConfig heldBootState 30 1).2.map
        Event.kind := by
  decide

/-- C7 (amended): the very first confirmed sample produces no
classification event: while the confirmed level holds the unknown
sentinel, the baseline stage records the observed level and stops the pass
(the pass dispatches exactly the heartbeat-stage events); a later
confirmed sample differing from the baseline, on a clean boot state,
produces the correct `Pressed` event at the pressed polarity, and the
correct `Released` event at the released polarity provided the
suppress-after-click feature is disabled — with click features and
suppress-after-click enabled, the boot-stale press timestamp can classify
that release as a click and suppress `Released` entirely. -/
theorem c7_first_confirmed_sample :
    (∀ (s : ButtonState) (lvl : Nat),
      s.lastButtonState = kButtonStateUnknown →
      checkInitialized s lvl =
        ({ s with lastButtonState := lvl }, false)) ∧
    (∀ cfg s now lvl,
      s.lastButtonState = kButtonStateUnknown →
      (checkDebounced cfg ((checkHeartBeat cfg s now).1) now lvl).2 = true →
      (checkState cfg s now lvl).2 = (checkHeartBeat cfg s now).2 ∧
      ((checkState cfg s now lvl).1).lastButtonState = lvl) ∧
    (∀ cfg s now lvl,
      s.lastButtonState ≠ kButtonStateUnknown →
      lvl ≠ s.lastButtonState →
      (checkDebounced cfg ((checkHeartBeat cfg s now).1) now lvl).2 = true →
      s.longPressed = false → s.repeatPressed = false → s.clicked = false →
      s.doubleClicked = false → s.clickPostponed = false →
      cfg.featureSuppressAfterClick = false →
      ((lvl ≠ getDefaultReleasedState s →
        kEventPressed ∈ (checkState cfg s now lvl).2.map Event.kind ∧
        kEventReleased ∉ (checkState cfg s now lvl).2.map Event.kind) ∧
       (lvl = getDefaultReleasedState s →
        kEventReleased ∈ (checkState cfg s now lvl).2.map Event.kind ∧
        kEventPressed ∉ (checkState cfg s now lvl).2.map Event.kind))) := by
  refine ⟨fun s lvl h => checkInitialized_unknown s lvl h, ?_, ?_⟩
  · intro cfg s now lvl hU hconf
    have hH1 : ((checkHeartBeat cfg s now).1).lastButtonState =
        s.lastButtonState := by
      rcases checkHeartBeat_cases cfg s now with hh | hh | hh <;> rw [hh]
    unfold checkState
    dsimp only
    rw [hconf, if_pos rfl]
    rw [checkInitialized_unknown _ lvl (by
      rw [(checkDebounced_proj cfg ((checkHeartBeat cfg s now).1) now
        lvl).1, hH1]
      exact hU)]
    dsimp only
    rw [if_neg (by simp)]
    exact ⟨rfl, rfl⟩
  · intro cfg s now lvl hB hne hconf hlp hrp hc hdc hcp hsac
    obtain ⟨hH1, hH2, hH3, hH4, hH5, hH6, hH7⟩ :
        ((checkHeartBeat cfg s now).1).lastButtonState =
          s.lastButtonState ∧
        ((checkHeartBeat cfg s now).1).defaultReleasedHigh =
          s.defaultReleasedHigh ∧
        ((checkHeartBeat cfg s now).1).longPressed = s.longPressed ∧
        ((checkHeartBeat cfg s now).1).repeatPressed = s.repeatPressed ∧
        ((checkHeartBeat cfg s now).1).clicked = s.clicked ∧
        ((checkHeartBeat cfg s now).1).doubleClicked = s.doubleClicked ∧
        ((checkHeartBeat cfg s now).1).clickPostponed = s.clickPostponed :=
      by
      rcases checkHeartBeat_cases cfg s now with hh | hh | hh <;> rw [hh] <;>
        exact ⟨rfl, rfl, rfl, rfl, rfl, rfl, rfl⟩
    have hhbk : ∀ e ∈ (checkHeartBeat cfg s now).2,
        e.kind = kEventHeartBeat := by
      rcases checkHeartBeat_cases cfg s now with hh | hh | hh <;> rw [hh] <;>
        simp
    obtain ⟨q1, q2, q3, q4, q5, q6, q7, q8⟩ :=
      checkDebounced_proj cfg ((checkHeartBeat cfg s now).1) now lvl
    have hCP := changePass_boot cfg
      ((checkDebounced cfg ((checkHeartBeat cfg s now).1) now lvl).1) now
      lvl
      (by rw [q1, hH1]; exact hne)
      (by rw [q4, hH3]; exact hlp)
      (by rw [q5, hH4]; exact hrp)
      (by rw [q6, hH5]; exact hc)
      (by rw [q7, hH6]; exact hdc)
      (by rw [q8, hH7]; exact hcp)
      hsac
    have hXdef : getDefaultReleasedState
        ((checkDebounced cfg ((checkHeartBeat cfg s now).1) now lvl).1) =
        getDefaultReleasedState s := by
      unfold getDefaultReleasedState
      rw [q2, hH2]
    unfold checkState
    dsimp only
    rw [hconf, if_pos rfl]
    rw [checkInitialized_known _ lvl (by rw [q1, hH1]; exact hB)]
    dsimp only
    rw [if_pos rfl]
    constructor
    · intro hpol
      obtain ⟨m1, m2⟩ := hCP.1 (by rw [hXdef]; exact hpol)
      constructor
      · simp only [List.map_append, List.mem_append]
        exact Or.inr m1
      · intro hmem
        simp only [List.map_append, List.mem_append] at hmem
        rcases hmem with hmem | hmem
        · rcases List.mem_map.1 hmem with ⟨e, he, hk⟩
          rw [hhbk e he] at hk
          simp at hk
        · exact m2 hmem
    · intro hpol
      obtain ⟨m1, m2⟩ := hCP.2 (by rw [hXdef]; exact hpol)
      constructor
      · simp only [List.map_append, List.mem_append]
        exact Or.inr m1
      · intro hmem
        simp only [List.map_append, List.mem_append] at hmem
        rcases hmem with hmem | hmem
        · rcases List.mem_map.1 hmem with ⟨e, he, hk⟩
          rw [hhbk e he] at hk
          simp at hk
        · exact m2 hmem

/-- C7 witness: a boot sequence with a 16-bit-free concrete state: the
first confirmed sample (still unknown baseline) dispatches nothing and
records the baseline; a later confirmed differing sample produces exactly
the `Pressed` event. -/
theorem c7_first_confirmed_sample_witness :
    checkInitialized bootDebounceState 1 =
      ({ bootDebounceState with lastButtonState := 1 }, false) ∧
    ((checkState sampleConfig bootDebounceState 30 1).2 =
      (checkHeartBeat sampleConfig bootDebounceState 30).2 ∧
     ((checkState sampleConfig bootDebounceState 30 1).1).lastButtonState =
      1) ∧
    (kEventPressed ∈
      (checkState sampleConfig baselinedDebounceState 30 0).2.map
        Event.kind ∧
     kEventReleased ∉
      (checkState sampleConfig baselinedDebounceState 30 0).2.map
        Event.kind) :=
  ⟨c7_first_confirmed_sample.1 bootDebounceState 1 (by decide),
   c7_first_confirmed_sample.2.1 sampleConfig bootDebounceState 30 1
     (by decide) (by decide),
   (c7_first_confirmed_sample.2.2 sampleConfig baselinedDebounceState 30 0
     (by decide) (by decide) (by decide) (by decide) (by decide)
     (by decide) (by decide) (by decide) (by decide)).1 (by decide)⟩

/-- Helper: double-click evaluation pairing with a pending postponed click
inside the window clears ClickPostponed, sets DoubleClicked, and emits one
`DoubleClicked` at the last confirmed level. -/
theorem checkDoubleClicked_hit (cfg : ButtonConfig) (s : ButtonState)
    (now : Int) (hc : s.clicked = true) (hcp : s.clickPostponed = true)
    (h2 : now - s.lastClickTime < cfg.doubleClickDelay) :
    checkDoubleClicked cfg s now =
      ({ s with clickPostponed := false, doubleClicked := true },
       [⟨kEventDoubleClicked, s.lastButtonState⟩]) := by
  unfold checkDoubleClicked handleEvent
  rw [if_neg (show ¬(¬ s.clicked = true) by simp [hc]),
      if_neg (show ¬(now - s.lastClickTime ≥ cfg.doubleClickDelay)
        by omega),
      if_pos hcp]

/-- Helper: a qualifying release with no click pending, with double click
and postponement enabled, records a fresh postponed click and emits
nothing. -/
theorem checkClicked_freshPostponed (cfg : ButtonConfig) (s : ButtonState)
    (now : Int) (hFD : cfg.featureDoubleClick = true)
    (hFS : cfg.featureSuppressClickBeforeDoubleClick = true)
    (h1 : now - s.lastPressTime < cfg.clickDelay)
    (hc : s.clicked = false) :
    checkClicked cfg s now =
      ({ s with doubleClicked := false, lastClickTime := now, clicked := true, clickPostponed := true }, []) := by
  unfold checkClicked
  rw [if_neg (show ¬(now - s.lastPressTime ≥ cfg.clickDelay) by omega)]
  try dsimp only
  rw [hFD]
  rw [if_pos (show (true : Bool) = true from rfl)]
  rw [checkDoubleClicked_notClicked cfg s now hc]
  try dsimp only
  split_ifs <;> first | rfl | simp_all

/-- Helper: a qualifying release pairing with a pending postponed click
inside the double-click window, with double click enabled, clears
ClickPostponed and Clicked, sets DoubleClicked, and emits exactly one
`DoubleClicked` at the last confirmed level. -/
theorem checkClicked_doubleHit (cfg : ButtonConfig) (s : ButtonState)
    (now : Int) (hFD : cfg.featureDoubleClick = true)
    (h1 : now - s.lastPressTime < cfg.clickDelay)
    (hc : s.clicked = true) (hcp : s.clickPostponed = true)
    (h2 : now - s.lastClickTime < cfg.doubleClickDelay) :
    checkClicked cfg s now =
      ({ s with clickPostponed := false, doubleClicked := true, clicked := false },
       [⟨kEventDoubleClicked, s.lastButtonState⟩]) := by
  unfold checkClicked
  rw [if_neg (show ¬(now - s.lastPressTime ≥ cfg.clickDelay) by omega)]
  try dsimp only
  rw [hFD]
  rw [if_pos (show (true : Bool) = true from rfl)]
  rw [checkDoubleClicked_hit cfg s now hc hcp h2]
  try dsimp only
  split_ifs <;> first | rfl | simp_all

/-- C4: with Click, DoubleClick and click postponement all enabled (and the
long-press and repeat-press detectors disabled), two complete press/release
cycles over a released-baseline state, where both releases are qualifying
clicks and the second release falls within the double-click window of the
first click, produce exactly one `DoubleClicked` event and zero `Clicked`
events across all four confirmed samples: `checkDoubleClicked` clears the
ClickPostponed flag before emitting `DoubleClicked`, so the deferred single
`Clicked` never fires. -/
theorem c4_double_click_exclusivity (cfg : ButtonConfig) (s0 : ButtonState)
    (t0 t1 t2 t3 : Int)
    (hFC : cfg.featureClick = true) (hFD : cfg.featureDoubleClick = true)
    (hFS : cfg.featureSuppressClickBeforeDoubleClick = true)
    (hFL : cfg.featureLongPress = false)
    (hFR : cfg.featureRepeatPress = false)
    (hs1 : s0.lastButtonState = 1) (hs2 : s0.defaultReleasedHigh = true)
    (hs3 : s0.clicked = false) (hs4 : s0.clickPostponed = false)
    (hs5 : s0.longPressed = false) (hs6 : s0.repeatPressed = false)
    (h01 : t0 ≤ t1) (h12 : t1 ≤ t2) (h23 : t2 ≤ t3)
    (hq1 : t1 - t0 < cfg.clickDelay) (hq2 : t3 - t2 < cfg.clickDelay)
    (hw : t3 - t1 < cfg.doubleClickDelay) :
    (let a := checkEvent cfg s0 t0 0
     let b := checkEvent cfg a.1 t1 1
     let c := checkEvent cfg b.1 t2 0
     let d := checkEvent cfg c.1 t3 1
     (a.2 ++ b.2 ++ c.2 ++ d.2).countP
        (fun e => decide (e.kind = kEventClicked)) = 0 ∧
     (a.2 ++ b.2 ++ c.2 ++ d.2).countP
        (fun e => decide (e.kind = kEventDoubleClicked)) = 1) := by
  try dsimp only
  have hA : checkEvent cfg s0 t0 0 =
      ({ s0 with lastButtonState := 0, lastPressTime := t0, pressed := true }, [⟨kEventPressed, 0⟩]) := by
    unfold checkEvent
    try dsimp only
    rw [clickHousekeeping_inert cfg s0 t0 hs3 hs4]
    try dsimp only
    rw [hFL, hFR]
    rw [if_neg (show ¬(false = true) by simp),
        if_neg (show ¬(false = true) by simp)]
    try dsimp only
    rw [if_pos (show (0 : Nat) ≠ s0.lastButtonState by rw [hs1]; decide)]
    unfold checkChanged
    try dsimp only
    rw [checkPressed_hit _ t0 0 (by simp [getDefaultReleasedState, HIGH,
      hs2])]
    try dsimp only
    rw [checkReleased_skip cfg _ t0 0 (by simp [getDefaultReleasedState,
      HIGH, hs2])]
    simp
  have hB : ∃ sB ev,
      checkEvent cfg { s0 with lastButtonState := 0, lastPressTime := t0, pressed := true } t1 1 = (sB, ev) ∧
      sB.lastButtonState = 1 ∧
      sB.defaultReleasedHigh = s0.defaultReleasedHigh ∧
      sB.clicked = true ∧
      sB.clickPostponed = true ∧
      sB.lastClickTime = t1 ∧
      sB.longPressed = false ∧
      sB.repeatPressed = false ∧
      ev.countP (fun e => decide (e.kind = kEventClicked)) = 0 ∧
      ev.countP (fun e => decide (e.kind = kEventDoubleClicked)) = 0 := by
    unfold checkEvent
    try dsimp only
    rw [clickHousekeeping_inert cfg _ t1 (by exact hs3) (by exact hs4)]
    try dsimp only
    rw [hFL, hFR]
    rw [if_neg (show ¬(false = true) by simp),
        if_neg (show ¬(false = true) by simp)]
    try dsimp only
    rw [if_pos (show (1 : Nat) ≠ ({ s0 with lastButtonState := 0, lastPressTime := t0, pressed := true } : ButtonState).lastButtonState by simp)]
    unfold checkChanged
    try dsimp only
    rw [checkPressed_skip _ t1 1 (by simp [getDefaultReleasedState, HIGH,
      hs2])]
    try dsimp only
    unfold checkReleased
    rw [if_neg (by simp [getDefaultReleasedState, HIGH, hs2])]
    try dsimp only
    unfold releaseClickPhase
    rw [if_pos (Or.inl hFC)]
    rw [checkClicked_freshPostponed cfg _ t1 hFD hFS (by dsimp only; omega)
      (by exact hs3)]
    try dsimp only
    unfold releaseSuppress
    try dsimp only
    rw [hs5, hs6]
    simp only [Bool.false_and, Bool.false_or, Bool.true_and,
      Bool.or_false]
    cases hsc : cfg.featureSuppressAfterClick
    · rw [if_neg (show ¬(false = true) by simp)]
      try dsimp only
      refine ⟨_, _, rfl, ?_, ?_, ?_, ?_, ?_, ?_, ?_, ?_, ?_⟩ <;> first | rfl | simp | decide
    · rw [if_pos rfl]
      try dsimp only
      rw [if_neg (show ¬(false = true) by simp)]
      refine ⟨_, _, rfl, ?_, ?_, ?_, ?_, ?_, ?_, ?_, ?_, ?_⟩ <;> first | rfl | simp | decide
  obtain ⟨sB, evB, hBeq, hB1, hB2, hB3, hB4, hB5, hB6, hB7, hBc1, hBc2⟩ :=
    hB
  have hC : checkEvent cfg sB t2 0 =
      ({ sB with lastButtonState := 0, lastPressTime := t2, pressed := true }, [⟨kEventPressed, 0⟩]) := by
    unfold checkEvent
    try dsimp only
    unfold clickHousekeeping
    rw [if_pos (Or.inl hFC)]
    try dsimp only
    rw [checkPostponedClick_eq, checkOrphanedClick_eq]
    try dsimp only
    rw [if_neg (show ¬(sB.clickPostponed = true ∧ t2 - sB.lastClickTime ≥ cfg.doubleClickDelay) by rw [hB5]; rintro ⟨-, hx⟩; omega)]
    try dsimp only
    rw [if_neg (show ¬(sB.clicked = true ∧ t2 - sB.lastClickTime ≥ cfg.doubleClickDelay) by rw [hB5]; rintro ⟨-, hx⟩; omega)]
    try dsimp only
    rw [hFL, hFR]
    rw [if_neg (show ¬(false = true) by simp),
        if_neg (show ¬(false = true) by simp)]
    try dsimp only
    rw [if_pos (show (0 : Nat) ≠ sB.lastButtonState by rw [hB1]; decide)]
    unfold checkChanged
    try dsimp only
    rw [checkPressed_hit _ t2 0 (by simp [getDefaultReleasedState, HIGH,
      hB2, hs2])]
    try dsimp only
    rw [checkReleased_skip cfg _ t2 0 (by simp [getDefaultReleasedState,
      HIGH, hB2, hs2])]
    simp
  have hD : ∃ sD ev,
      checkEvent cfg { sB with lastButtonState := 0, lastPressTime := t2, pressed := true } t3 1 = (sD, ev) ∧
      ev.countP (fun e => decide (e.kind = kEventClicked)) = 0 ∧
      ev.countP (fun e => decide (e.kind = kEventDoubleClicked)) = 1 := by
    unfold checkEvent
    try dsimp only
    unfold clickHousekeeping
    rw [if_pos (Or.inl hFC)]
    try dsimp only
    rw [checkPostponedClick_eq, checkOrphanedClick_eq]
    try dsimp only
    rw [if_neg (show ¬(sB.clickPostponed = true ∧ t3 - sB.lastClickTime ≥ cfg.doubleClickDelay) by rw [hB5]; rintro ⟨-, hx⟩; omega)]
    try dsimp only
    rw [if_neg (show ¬(sB.clicked = true ∧ t3 - sB.lastClickTime ≥ cfg.doubleClickDelay) by rw [hB5]; rintro ⟨-, hx⟩; omega)]
    try dsimp only
    rw [hFL, hFR]
    rw [if_neg (show ¬(false = true) by simp),
        if_neg (show ¬(false = true) by simp)]
    try dsimp only
    rw [if_pos (show (1 : Nat) ≠ ({ sB with lastButtonState := 0, lastPressTime := t2, pressed := true } : ButtonState).lastButtonState by simp)]
    unfold checkChanged
    try dsimp only
    rw [checkPressed_skip _ t3 1 (by simp [getDefaultReleasedState, HIGH,
      hB2, hs2])]
    try dsimp only
    unfold checkReleased
    rw [if_neg (by simp [getDefaultReleasedState, HIGH, hB2, hs2])]
    try dsimp only
    unfold releaseClickPhase
    rw [if_pos (Or.inl hFC)]
    rw [checkClicked_doubleHit cfg _ t3 hFD (by dsimp only; omega)
      (by dsimp only; exact hB3) (by dsimp only; exact hB4)
      (by dsimp only; rw [hB5]; omega)]
    try dsimp only
    unfold releaseSuppress
    try dsimp only
    rw [hB6, hB7]
    simp only [Bool.false_and, Bool.false_or, Bool.true_and,
      Bool.or_false]
    cases hsd : cfg.featureSuppressAfterDoubleClick
    · rw [if_neg (show ¬(false = true) by simp)]
      try dsimp only
      refine ⟨_, _, rfl, ?_, ?_⟩ <;> first | rfl | simp | decide
    · rw [if_pos rfl]
      try dsimp only
      rw [if_neg (show ¬(false = true) by simp)]
      refine ⟨_, _, rfl, ?_, ?_⟩ <;> first | rfl | simp | decide
  obtain ⟨sD, evD, hDeq, hDc1, hDc2⟩ := hD
  rw [hA]
  try dsimp only
  rw [hBeq]
  try dsimp only
  rw [hC]
  try dsimp only
  rw [hDeq]
  try dsimp only
  simp [List.countP_append, hBc1, hBc2, hDc1, hDc2]

/-- C4 witness: the concrete double-click run (press 10, release 100,
press 250, release 300; clickDelay 200, doubleClickDelay 400). -/
theorem c4_double_click_exclusivity_witness :
    (let a := checkEvent doubleClickConfig restingState 10 0
     let b := checkEvent doubleClickConfig a.1 100 1
     let c := checkEvent doubleClickConfig b.1 250 0
     let d := checkEvent doubleClickConfig c.1 300 1
     (a.2 ++ b.2 ++ c.2 ++ d.2).countP
        (fun e => decide (e.kind = kEventClicked)) = 0 ∧
     (a.2 ++ b.2 ++ c.2 ++ d.2).countP
        (fun e => decide (e.kind = kEventDoubleClicked)) = 1) :=
  c4_double_click_exclusivity doubleClickConfig restingState 10 100 250 300
    (by decide) (by decide) (by decide) (by decide) (by decide) (by decide)
    (by decide) (by decide) (by decide) (by decide) (by decide) (by decide)
    (by decide) (by decide) (by decide) (by decide) (by decide)

end AceButton
